import Mathlib

/-!
Shallow embedding of the LC-3 virtual machine (Rust sources `defs.rs`,
`state.rs`, `instr.rs`).  Machine words are modelled as `Nat` kept below
`2 ^ 16` by explicit `% 65536` wherever the Rust code relies on `u16`
wraparound.  Rust operations that can panic (array indexing through
`Index<u16>`, `Option::unwrap`, overflowing shifts in debug builds,
`expect` on an unknown trap vector) are modelled as `Option`/`Except`
results, with `none` standing for the absence of a normal result.
Host input (stdin together with the `check_key` poll) is modelled as a
list of pending bytes carried in the machine state; host output is a
list of emitted character codes.
-/

namespace LC3

/-! Register identifiers, from the `R` enum in `defs.rs`
    (`#[repr(usize)]`, so each name below is its discriminant). -/
namespace R

def R0 : Nat := 0
def R1 : Nat := 1
def R2 : Nat := 2
def R3 : Nat := 3
def R4 : Nat := 4
def R5 : Nat := 5
def R6 : Nat := 6
def R7 : Nat := 7
def PC : Nat := 8
def COND : Nat := 9
def COUNT : Nat := 10

end R

/-! Condition flags, from the `FL` enum in `defs.rs`. -/
namespace FL

def POS : Nat := 1
def ZRO : Nat := 2
def NEG : Nat := 4

end FL

/-! Memory mapped registers, from the `MR` enum in `defs.rs`. -/
namespace MR

def KBSR : Nat := 0xFE00
def KBDR : Nat := 0xFE02

end MR

/-- Opcodes, from the `OP` enum in `defs.rs`. -/
inductive OP where
  | BR | ADD | LD | ST | JSR | AND | LDR | STR
  | RTI | NOT | LDI | STI | JMP | RES | LEA | TRAP
deriving DecidableEq, Repr

/-- `impl TryFrom<u16> for OP` in `defs.rs`. -/
def OP.tryFrom (value : Nat) : Except Nat OP :=
  match value with
  | 0 => .ok .BR
  | 1 => .ok .ADD
  | 2 => .ok .LD
  | 3 => .ok .ST
  | 4 => .ok .JSR
  | 5 => .ok .AND
  | 6 => .ok .LDR
  | 7 => .ok .STR
  | 8 => .ok .RTI
  | 9 => .ok .NOT
  | 10 => .ok .LDI
  | 11 => .ok .STI
  | 12 => .ok .JMP
  | 13 => .ok .RES
  | 14 => .ok .LEA
  | 15 => .ok .TRAP
  | _ => .error value

/-- Trap vectors, from the `TRAP` enum in `defs.rs`. -/
inductive TRAP where
  | GETC | OUT | PUTS | IN | PUTSP | HALT
deriving DecidableEq, Repr

/-- `impl TryFrom<u16> for TRAP` in `defs.rs`. -/
def TRAP.tryFrom (value : Nat) : Except Nat TRAP :=
  match value with
  | 0x20 => .ok .GETC
  | 0x21 => .ok .OUT
  | 0x22 => .ok .PUTS
  | 0x23 => .ok .IN
  | 0x24 => .ok .PUTSP
  | 0x25 => .ok .HALT
  | _ => .error value

/-- The machine state from `state.rs` (`State` holding `Registers`,
    `Memory` and the `running` flag), extended with the host-IO
    collaborators: `input` is the stream of bytes pending on stdin
    (`check_key` answers true exactly when it is nonempty) and `output`
    collects the character codes printed so far. -/
structure State where
  reg : List Nat
  mem : Nat → Nat
  input : List Nat
  output : List Nat
  running : Bool

/-- `Index<u16> for Registers` in `state.rs`: `&self.reg[i as usize]`,
    which panics (here: `none`) when the index is out of bounds. -/
def regRead (reg : List Nat) (i : Nat) : Option Nat :=
  reg[i]?

/-- `IndexMut<u16> for Registers` in `state.rs`: stores through
    `&mut self.reg[i as usize]`, panicking (here: `none`) out of bounds. -/
def regWrite (reg : List Nat) (i : Nat) (v : Nat) : Option (List Nat) :=
  if i < reg.length then some (reg.set i v) else none

/-- `Registers::update_flags` in `state.rs`. -/
def update_flags (reg : List Nat) (r : Nat) : Option (List Nat) := do
  let v ← regRead reg r
  if v = 0 then
    regWrite reg R.COND FL.ZRO
  else if v >>> 15 ≠ 0 then
    regWrite reg R.COND FL.NEG
  else
    regWrite reg R.COND FL.POS

/-- `Memory::read` in `state.rs`.  Reading the keyboard status address
    polls the input stream: with a byte `b` pending, `KBSR` is set to
    `1 <<< 15`, the byte is consumed into `KBDR`; otherwise `KBSR` is
    cleared.  The word finally returned is `data[address]` after this
    update.  Every other address is a plain array read. -/
def memRead (s : State) (address : Nat) : Nat × State :=
  if address = MR.KBSR then
    match s.input with
    | b :: rest =>
        let mem1 : Nat → Nat := fun a =>
          if a = MR.KBSR then 1 <<< 15
          else if a = MR.KBDR then b % 256
          else s.mem a
        (mem1 address, { s with mem := mem1, input := rest })
    | [] =>
        let mem1 : Nat → Nat := fun a =>
          if a = MR.KBSR then 0 else s.mem a
        (mem1 address, { s with mem := mem1 })
  else
    (s.mem address, s)

/-- `Memory::write` in `state.rs`: a plain array store. -/
def memWrite (s : State) (address value : Nat) : State :=
  { s with mem := fun a => if a = address then value else s.mem a }

/-- The total core of `sign_extend` (the branch structure of the Rust
    body on shift amounts that do not overflow): set the bits above
    `bit_count` when the sign bit of the `bit_count`-wide field is 1.
    `0xFFFF <<< bit_count` is truncated to 16 bits as the Rust `u16`
    shift discards shifted-out bits. -/
def sext (x bit_count : Nat) : Nat :=
  if (x >>> (bit_count - 1)) &&& 1 ≠ 0 then
    x ||| ((0xFFFF <<< bit_count) % 65536)
  else
    x

/-- `sign_extend` in `instr.rs`.  The Rust version shifts a `u16` by
    `bit_count - 1` and, in the sign-set branch, computes
    `0xFFFF << bit_count`; a shift amount outside `0..=15` is an
    arithmetic overflow (a panic in debug builds), modelled as `none`:
    this happens when `bit_count = 0` or `bit_count > 16`, and in the
    sign-set branch when `bit_count = 16`. -/
def sign_extend (x bit_count : Nat) : Option Nat :=
  if bit_count = 0 ∨ 16 < bit_count then
    none
  else if (x >>> (bit_count - 1)) &&& 1 ≠ 0 then
    if bit_count = 16 then none
    else some (x ||| ((0xFFFF <<< bit_count) % 65536))
  else
    some x

/-- `do_add` in `instr.rs`. -/
def do_add (instr : Nat) (s : State) : Option State := do
  let r0 := (instr >>> 9) &&& 0x7
  let r1 := (instr >>> 6) &&& 0x7
  let imm_flag := (instr >>> 5) &&& 1
  let reg1 ←
    if imm_flag ≠ 0 then do
      let imm5 ← sign_extend (instr &&& 0x1F) 5
      let v1 ← regRead s.reg r1
      regWrite s.reg r0 ((v1 + imm5) % 65536)
    else do
      let r2 := instr &&& 0x7
      let v1 ← regRead s.reg r1
      let v2 ← regRead s.reg r2
      regWrite s.reg r0 ((v1 + v2) % 65536)
  let reg2 ← update_flags reg1 r0
  pure { s with reg := reg2 }

/-- `do_ldi` in `instr.rs`, translated verbatim: the destination field
    is extracted with `(instr >> 4) & 0x7` and the loaded value is
    `mem.read(mem.read(reg[PC]).wrapping_add(pc_offset))`. -/
def do_ldi (instr : Nat) (s : State) : Option State := do
  let r0 := (instr >>> 4) &&& 0x7
  let pc_offset ← sign_extend (instr &&& 0x1FF) 9
  let pcv ← regRead s.reg R.PC
  let p := memRead s pcv
  let q := memRead p.2 ((p.1 + pc_offset) % 65536)
  let reg1 ← regWrite q.2.reg r0 q.1
  let reg2 ← update_flags reg1 r0
  pure { q.2 with reg := reg2 }

/-- `do_and` in `instr.rs`. -/
def do_and (instr : Nat) (s : State) : Option State := do
  let r0 := (instr >>> 9) &&& 0x7
  let r1 := (instr >>> 6) &&& 0x7
  let imm_flag := (instr >>> 5) &&& 1
  let reg1 ←
    if imm_flag ≠ 0 then do
      let imm5 ← sign_extend (instr &&& 0x1F) 5
      let v1 ← regRead s.reg r1
      regWrite s.reg r0 (v1 &&& imm5)
    else do
      let r2 := instr &&& 0x7
      let v1 ← regRead s.reg r1
      let v2 ← regRead s.reg r2
      regWrite s.reg r0 (v1 &&& v2)
  let reg2 ← update_flags reg1 r0
  pure { s with reg := reg2 }

/-- `do_not` in `instr.rs` (`!` on `u16` is xor with `0xFFFF`). -/
def do_not (instr : Nat) (s : State) : Option State := do
  let r0 := (instr >>> 9) &&& 0x7
  let r1 := (instr >>> 6) &&& 0x7
  let v1 ← regRead s.reg r1
  let reg1 ← regWrite s.reg r0 (v1 ^^^ 0xFFFF)
  let reg2 ← update_flags reg1 r0
  pure { s with reg := reg2 }

/-- `do_br` in `instr.rs`. -/
def do_br (instr : Nat) (s : State) : Option State := do
  let cond_flag := (instr >>> 9) &&& 0x7
  let pc_offset ← sign_extend (instr &&& 0x1FF) 9
  let condv ← regRead s.reg R.COND
  if cond_flag &&& condv ≠ 0 then do
    let pcv ← regRead s.reg R.PC
    let reg1 ← regWrite s.reg R.PC ((pcv + pc_offset) % 65536)
    pure { s with reg := reg1 }
  else
    pure s

/-- `do_jmp` in `instr.rs`. -/
def do_jmp (instr : Nat) (s : State) : Option State := do
  let r1 := (instr >>> 6) &&& 0x7
  let v ← regRead s.reg r1
  let reg1 ← regWrite s.reg R.PC v
  pure { s with reg := reg1 }

/-- `do_jsr` in `instr.rs`: the link `R7 ← PC` is performed first, and
    the base-register read of the JSRR arm happens on the register file
    that already holds the link. -/
def do_jsr (instr : Nat) (s : State) : Option State := do
  let long_flag := (instr >>> 11) &&& 1
  let pcv ← regRead s.reg R.PC
  let regL ← regWrite s.reg R.R7 pcv
  if long_flag ≠ 0 then do
    let long_pc_offset ← sign_extend (instr &&& 0x7FF) 11
    let pcv2 ← regRead regL R.PC
    let reg2 ← regWrite regL R.PC ((pcv2 + long_pc_offset) % 65536)
    pure { s with reg := reg2 }
  else do
    let r1 := (instr >>> 6) &&& 0x7
    let v ← regRead regL r1
    let reg2 ← regWrite regL R.PC v
    pure { s with reg := reg2 }

/-- `do_ld` in `instr.rs`. -/
def do_ld (instr : Nat) (s : State) : Option State := do
  let r0 := (instr >>> 9) &&& 0x7
  let pc_offset ← sign_extend (instr &&& 0x1FF) 9
  let pcv ← regRead s.reg R.PC
  let p := memRead s ((pcv + pc_offset) % 65536)
  let reg1 ← regWrite p.2.reg r0 p.1
  let reg2 ← update_flags reg1 r0
  pure { p.2 with reg := reg2 }

/-- `do_ldr` in `instr.rs`. -/
def do_ldr (instr : Nat) (s : State) : Option State := do
  let r0 := (instr >>> 9) &&& 0x7
  let r1 := (instr >>> 6) &&& 0x7
  let offset ← sign_extend (instr &&& 0x3F) 6
  let base ← regRead s.reg r1
  let p := memRead s ((base + offset) % 65536)
  let reg1 ← regWrite p.2.reg r0 p.1
  let reg2 ← update_flags reg1 r0
  pure { p.2 with reg := reg2 }

/-- `do_lea` in `instr.rs`. -/
def do_lea (instr : Nat) (s : State) : Option State := do
  let r0 := (instr >>> 9) &&& 0x7
  let pc_offset ← sign_extend (instr &&& 0x1FF) 9
  let pcv ← regRead s.reg R.PC
  let reg1 ← regWrite s.reg r0 ((pcv + pc_offset) % 65536)
  let reg2 ← update_flags reg1 r0
  pure { s with reg := reg2 }

/-- `do_st` in `instr.rs`, translated verbatim: the store address is
    `(R::PC as u16).wrapping_add(pc_offset)`, and `R::PC as u16` is the
    enum discriminant `8`, not the program-counter register value. -/
def do_st (instr : Nat) (s : State) : Option State := do
  let r0 := (instr >>> 9) &&& 0x7
  let pc_offset ← sign_extend (instr &&& 0x1FF) 9
  let address := (R.PC + pc_offset) % 65536
  let value ← regRead s.reg r0
  pure (memWrite s address value)

/-- `do_sti` in `instr.rs`, translated verbatim: the pointer is read at
    `(R::PC as u16).wrapping_add(pc_offset)` where `R::PC as u16` is the
    enum discriminant `8`, not the program-counter register value. -/
def do_sti (instr : Nat) (s : State) : Option State := do
  let r0 := (instr >>> 9) &&& 0x7
  let pc_offset ← sign_extend (instr &&& 0x1FF) 9
  let p := memRead s ((R.PC + pc_offset) % 65536)
  let value ← regRead p.2.reg r0
  pure (memWrite p.2 p.1 value)

/-- `do_str` in `instr.rs`. -/
def do_str (instr : Nat) (s : State) : Option State := do
  let r0 := (instr >>> 9) &&& 0x7
  let r1 := (instr >>> 6) &&& 0x7
  let offset ← sign_extend (instr &&& 0x3F) 6
  let base ← regRead s.reg r1
  let value ← regRead s.reg r0
  pure (memWrite s ((base + offset) % 65536) value)

/-- The `TRAP::PUTS` loop of `do_trap` in `instr.rs`, translated
    verbatim: each word is truncated to a byte (`as u8`) and the loop
    stops when that byte is zero.  The Rust loop has no bound, so a fuel
    argument is added; `none` stands for fuel exhaustion. -/
def putsLoop : Nat → Nat → State → Option State
  | 0, _, _ => none
  | fuel + 1, address, s =>
      let p := memRead s address
      let c := p.1 % 256
      if c = 0 then some p.2
      else putsLoop fuel ((address + 1) % 65536)
        { p.2 with output := p.2.output ++ [c] }

/-- The `TRAP::PUTSP` loop of `do_trap` in `instr.rs`: the source reads
    `mem.read(c)` once for the loop condition and twice more for the two
    byte halves.  Fuel as in `putsLoop`. -/
def putspLoop : Nat → Nat → State → Option State
  | 0, _, _ => none
  | fuel + 1, c, s =>
      let p := memRead s c
      if p.1 ≠ 0 then
        let pa := memRead p.2 c
        let char1 := pa.1 &&& 0xFF
        let pb := memRead pa.2 c
        let char2 := (pb.1 >>> 8) % 256
        putspLoop fuel ((c + 1) % 65536)
          { pb.2 with output := pb.2.output ++ [char1, char2] }
      else some p.2

/-- Model of `std::io::stdin().read_line` on the pending-byte stream:
    the consumed line runs up to and including the first newline
    (byte 10), or to the end of the stream. -/
def splitLine : List Nat → List Nat × List Nat
  | [] => ([], [])
  | b :: rest =>
      if b = 10 then ([10], rest)
      else
        let (l, r) := splitLine rest
        (b :: l, r)

/-- Output of the `Enter a character: ` prompt of `TRAP::IN`. -/
def promptOut : List Nat :=
  [69, 110, 116, 101, 114, 32, 97, 32, 99, 104, 97, 114, 97, 99,
   116, 101, 114, 58, 32]

/-- Output of the `HALT` notice printed by `TRAP::HALT` (a `println!`,
    so a trailing newline is included). -/
def haltOut : List Nat := [72, 65, 76, 84, 10]

/-- `do_trap` in `instr.rs`.  `R7 ← PC` happens first; an unknown trap
    vector hits `expect("unknown trap routine")`, a panic modelled as
    `none`.  `GETC` with no pending input is `Option::unwrap` on `None`,
    also a panic.  The PUTS/PUTSP loops take the given fuel. -/
def do_trap (fuel : Nat) (instr : Nat) (s : State) : Option State := do
  let pcv ← regRead s.reg R.PC
  let regL ← regWrite s.reg R.R7 pcv
  let s := { s with reg := regL }
  match TRAP.tryFrom (instr &&& 0xFF) with
  | .error _ => none
  | .ok .GETC =>
      match s.input with
      | [] => none
      | b :: rest => do
          let reg1 ← regWrite s.reg R.R0 (b % 256)
          let reg2 ← update_flags reg1 R.R0
          pure { s with reg := reg2, input := rest }
  | .ok .OUT => do
      let v ← regRead s.reg R.R0
      pure { s with output := s.output ++ [v % 256] }
  | .ok .PUTS => do
      let address ← regRead s.reg R.R0
      putsLoop fuel address s
  | .ok .IN => do
      let s1 := { s with output := s.output ++ promptOut }
      let pr := splitLine s1.input
      let s2 := { s1 with input := pr.2 }
      match pr.1 with
      | [] => pure s2
      | c :: _ => do
          let s3 := { s2 with output := s2.output ++ [c] }
          let reg1 ← regWrite s3.reg R.R0 c
          let reg2 ← update_flags reg1 R.R0
          pure { s3 with reg := reg2 }
  | .ok .PUTSP => do
      let c ← regRead s.reg R.R0
      putspLoop fuel c s
  | .ok .HALT =>
      pure { s with output := s.output ++ haltOut, running := false }

/-- Condition-flag value determined by a register value, the common
    outcome of `Registers::update_flags`: zero value gives `ZRO`, a set
    bit 15 gives `NEG`, anything else gives `POS`. -/
def flagFor (v : Nat) : Nat :=
  if v = 0 then FL.ZRO
  else if v >>> 15 ≠ 0 then FL.NEG
  else FL.POS

/-- From the spec's words (claim C9): the value obtained by
    interpreting the low `n` bits of `x` as a signed `n`-bit
    two's-complement integer. -/
def asSignedInt (x n : Nat) : Int :=
  if x &&& 2 ^ (n - 1) ≠ 0 then (x : Int) - ((2 ^ n : Nat) : Int) else (x : Int)

/-- From the spec's words (claim C9): the 16-bit two's-complement
    representation of an integer. -/
def toU16 (i : Int) : Nat := (i % 65536).toNat

/-! ### Concrete machine states used by the example theorems -/

/-- All-zero memory. -/
def zeroMem : Nat → Nat := fun _ => 0

/-- Memory for the LDI example: `0x3000 ↦ 0x4000`, `0x3001 ↦ 0x5000`,
    `0x4001 ↦ 111`, `0x5000 ↦ 222`, zero elsewhere. -/
def ldiExampleMem : Nat → Nat := fun a =>
  if a = 0x3000 then 0x4000
  else if a = 0x3001 then 0x5000
  else if a = 0x4001 then 111
  else if a = 0x5000 then 222
  else 0

/-- State with PC = 0x3000 over `ldiExampleMem`, all registers zero. -/
def ldiExampleState : State :=
  ⟨[0, 0, 0, 0, 0, 0, 0, 0, 0x3000, 2], ldiExampleMem, [], [], true⟩

/-- State with R1 = 77 and PC = 0x3000 over all-zero memory. -/
def stExampleState : State :=
  ⟨[0, 77, 0, 0, 0, 0, 0, 0, 0x3000, 2], zeroMem, [], [], true⟩

/-- Memory for the STI example: `8 ↦ 100`, `0x3000 ↦ 0x4000`,
    zero elsewhere. -/
def stiExampleMem : Nat → Nat := fun a =>
  if a = 8 then 100 else if a = 0x3000 then 0x4000 else 0

/-- State with R1 = 55 and PC = 0x3000 over `stiExampleMem`. -/
def stiExampleState : State :=
  ⟨[0, 55, 0, 0, 0, 0, 0, 0, 0x3000, 2], stiExampleMem, [], [], true⟩

/-- Memory for the PUTS example: `0x3000 ↦ 0x0100` (a non-zero word
    whose low byte is zero), `0x3001 ↦ 0x41`, `0x3002 ↦ 0`. -/
def putsExampleMem : Nat → Nat := fun a =>
  if a = 0x3000 then 0x0100 else if a = 0x3001 then 0x41 else 0

/-- State with R0 = 0x3000 (string pointer) over `putsExampleMem`. -/
def putsExampleState : State :=
  ⟨[0x3000, 0, 0, 0, 0, 0, 0, 0, 0x3000, 2], putsExampleMem, [], [], true⟩

/-- A generic state with distinct register values and PC = 0x3000. -/
def demoState : State :=
  ⟨[11, 12, 13, 14, 15, 16, 17, 18, 0x3000, 2], zeroMem, [], [], true⟩

/-- State with one pending input byte (65) and `KBDR ↦ 99`. -/
def kbExampleState : State :=
  ⟨[0, 0, 0, 0, 0, 0, 0, 0, 0x3000, 2],
   fun a => if a = MR.KBDR then 99 else 0, [65], [], true⟩

/-! ### Helper lemmas on Nat bit arithmetic -/

theorem or_eq_add_of_and_eq_zero (a : Nat) : ∀ b, a &&& b = 0 → a ||| b = a + b := by
  induction a using Nat.strong_induction_on with
  | _ a ih =>
    intro b h
    rcases Nat.eq_zero_or_pos a with ha | ha
    · subst ha; simp
    · have hd : a / 2 < a := Nat.div_lt_self ha (by decide)
      have h2 : a / 2 &&& b / 2 = 0 := by
        have := Nat.and_div_two (a := a) (b := b)
        rw [h] at this
        simpa using this.symm
      have e1 : (a ||| b) / 2 = a / 2 + b / 2 := by
        rw [Nat.or_div_two, ih (a / 2) hd (b / 2) h2]
      have e2 : (a ||| b) % 2 = 1 ↔ a % 2 = 1 ∨ b % 2 = 1 := Nat.or_mod_two_eq_one
      have e3 : ¬(a % 2 = 1 ∧ b % 2 = 1) := by
        intro hc
        have hone := Nat.and_mod_two_eq_one.mpr hc
        rw [h] at hone
        simp at hone
      have d1 := Nat.div_add_mod a 2
      have d2 := Nat.div_add_mod b 2
      have d3 := Nat.div_add_mod (a ||| b) 2
      have m1 := Nat.mod_two_eq_zero_or_one a
      have m2 := Nat.mod_two_eq_zero_or_one b
      have m3 := Nat.mod_two_eq_zero_or_one (a ||| b)
      omega

theorem and_mul_two_pow_eq_zero (n : Nat) :
    ∀ x q : Nat, x < 2 ^ n → x &&& (q * 2 ^ n) = 0 := by
  induction n with
  | zero =>
    intro x q h
    have : x = 0 := by omega
    subst this
    simp
  | succ n ih =>
    intro x q h
    have hdiv2 : q * 2 ^ (n + 1) / 2 = q * 2 ^ n := by
      rw [Nat.pow_succ, ← Nat.mul_assoc]
      exact Nat.mul_div_cancel _ (by decide)
    have hmod2 : q * 2 ^ (n + 1) % 2 = 0 := by
      rw [Nat.pow_succ, ← Nat.mul_assoc]
      exact Nat.mul_mod_left _ _
    have hx2 : x / 2 < 2 ^ n := by
      have := Nat.pow_succ 2 n
      omega
    have e1 : (x &&& q * 2 ^ (n + 1)) / 2 = 0 := by
      rw [Nat.and_div_two, hdiv2]
      exact ih (x / 2) q hx2
    have e2 : ¬((x &&& q * 2 ^ (n + 1)) % 2 = 1) := by
      rw [Nat.and_mod_two_eq_one]
      intro hc
      omega
    have d3 := Nat.div_add_mod (x &&& q * 2 ^ (n + 1)) 2
    have m3 := Nat.mod_two_eq_zero_or_one (x &&& q * 2 ^ (n + 1))
    omega

theorem and_two_pow_eq_zero_iff (x k : Nat) :
    x &&& 2 ^ k = 0 ↔ x / 2 ^ k % 2 = 0 := by
  rw [Nat.and_two_pow, Nat.testBit_to_div_mod]
  rcases Nat.mod_two_eq_zero_or_one (x / 2 ^ k) with h | h <;>
    simp [h, Nat.pos_iff_ne_zero.mp (Nat.two_pow_pos k)]

theorem shiftRight_and_one_eq (x k : Nat) : (x >>> k) &&& 1 = x / 2 ^ k % 2 := by
  rw [Nat.shiftRight_eq_div_pow, Nat.and_one_is_mod]

theorem sext_mask_eq (n : Nat) (h1 : 1 ≤ n) (h2 : n ≤ 16) :
    (0xFFFF <<< n) % 65536 = 65536 - 2 ^ n := by
  rw [Nat.shiftLeft_eq]
  have hp1 : 2 ≤ 2 ^ n := by
    calc 2 = 2 ^ 1 := by decide
    _ ≤ 2 ^ n := Nat.pow_le_pow_right (by decide) h1
  have hp2 : 2 ^ n ≤ 65536 := by
    calc 2 ^ n ≤ 2 ^ 16 := Nat.pow_le_pow_right (by decide) h2
    _ = 65536 := by decide
  have key : 65535 * 2 ^ n = 65536 * (2 ^ n - 1) + (65536 - 2 ^ n) := by
    have e : 65536 * (2 ^ n - 1) = 65536 * 2 ^ n - 65536 := by
      have := Nat.mul_pred 65536 (2 ^ n)
      omega
    have e2 : 65535 * 2 ^ n = 65536 * 2 ^ n - 2 ^ n := by
      have := Nat.succ_mul 65535 (2 ^ n)
      omega
    have e3 : 2 ^ n ≤ 65536 * 2 ^ n := Nat.le_mul_of_pos_left _ (by decide)
    omega
  rw [key, Nat.mul_add_mod, Nat.mod_eq_of_lt (by omega)]

/-! ### Access lemmas for the register file, memory and sign_extend -/

theorem mask7_lt (x : Nat) : x &&& 0x7 < 8 :=
  lt_of_le_of_lt Nat.and_le_right (by decide)

theorem regRead_eq (reg : List Nat) (i : Nat) (h : i < reg.length) :
    regRead reg i = some (reg.getD i 0) := by
  simp [regRead, List.getD_eq_getElem?_getD, List.getElem?_eq_getElem h]

theorem regWrite_eq (reg : List Nat) (i v : Nat) (h : i < reg.length) :
    regWrite reg i v = some (reg.set i v) := by
  unfold regWrite
  rw [if_pos h]

theorem update_flags_eq (reg : List Nat) (r : Nat) (hr : r < reg.length)
    (h9 : 9 < reg.length) :
    update_flags reg r = some (reg.set 9 (flagFor (reg.getD r 0))) := by
  unfold update_flags flagFor
  rw [regRead_eq reg r hr]
  show (if reg.getD r 0 = 0 then regWrite reg R.COND FL.ZRO
    else if reg.getD r 0 >>> 15 ≠ 0 then regWrite reg R.COND FL.NEG
    else regWrite reg R.COND FL.POS) = _
  by_cases hz : reg.getD r 0 = 0
  · rw [if_pos hz, if_pos hz, regWrite_eq reg R.COND FL.ZRO h9]
    rfl
  · by_cases hn : reg.getD r 0 >>> 15 ≠ 0
    · rw [if_neg hz, if_pos hn, if_neg hz, if_pos hn,
        regWrite_eq reg R.COND FL.NEG h9]
      rfl
    · rw [if_neg hz, if_neg hn, if_neg hz, if_neg hn,
        regWrite_eq reg R.COND FL.POS h9]
      rfl

theorem getD_set_self (l : List Nat) (i v : Nat) (h : i < l.length) :
    (l.set i v).getD i 0 = v := by
  rw [List.getD_eq_getElem?_getD, List.getElem?_set_self h]
  rfl

theorem getD_set_ne (l : List Nat) (i j v : Nat) (h : i ≠ j) :
    (l.set i v).getD j 0 = l.getD j 0 := by
  rw [List.getD_eq_getElem?_getD, List.getElem?_set_ne h,
    ← List.getD_eq_getElem?_getD]

theorem sign_extend_eq_sext (x n : Nat) (h1 : 0 < n) (h2 : n < 16) :
    sign_extend x n = some (sext x n) := by
  unfold sign_extend sext
  rw [if_neg (by omega)]
  by_cases hc : (x >>> (n - 1)) &&& 1 ≠ 0
  · rw [if_pos hc, if_neg (by omega), if_pos hc]
  · rw [if_neg hc, if_neg hc]

theorem memRead_reg (s : State) (a : Nat) : (memRead s a).2.reg = s.reg := by
  unfold memRead
  by_cases hk : a = MR.KBSR
  · rw [if_pos hk]
    cases s.input <;> rfl
  · rw [if_neg hk]

theorem memRead_output (s : State) (a : Nat) :
    (memRead s a).2.output = s.output := by
  unfold memRead
  by_cases hk : a = MR.KBSR
  · rw [if_pos hk]
    cases s.input <;> rfl
  · rw [if_neg hk]

theorem memRead_running (s : State) (a : Nat) :
    (memRead s a).2.running = s.running := by
  unfold memRead
  by_cases hk : a = MR.KBSR
  · rw [if_pos hk]
    cases s.input <;> rfl
  · rw [if_neg hk]

theorem memRead_not_kbsr (s : State) (a : Nat) (h : a ≠ MR.KBSR) :
    memRead s a = (s.mem a, s) := by
  unfold memRead
  rw [if_neg h]

/-! ### Characterization of the execution routines on length-10
    register files -/

theorem do_add_eq (instr : Nat) (s : State) (h : s.reg.length = 10) :
    do_add instr s =
      some { s with reg :=
        ((s.reg.set ((instr >>> 9) &&& 0x7)
          (if (instr >>> 5) &&& 1 ≠ 0
            then (s.reg.getD ((instr >>> 6) &&& 0x7) 0 + sext (instr &&& 0x1F) 5) % 65536
            else (s.reg.getD ((instr >>> 6) &&& 0x7) 0 + s.reg.getD (instr &&& 0x7) 0) % 65536)).set 9
          (flagFor (if (instr >>> 5) &&& 1 ≠ 0
            then (s.reg.getD ((instr >>> 6) &&& 0x7) 0 + sext (instr &&& 0x1F) 5) % 65536
            else (s.reg.getD ((instr >>> 6) &&& 0x7) 0 + s.reg.getD (instr &&& 0x7) 0) % 65536))) } := by
  have h0 : (instr >>> 9) &&& 0x7 < s.reg.length := by
    rw [h]; exact lt_trans (mask7_lt _) (by decide)
  have h1 : (instr >>> 6) &&& 0x7 < s.reg.length := by
    rw [h]; exact lt_trans (mask7_lt _) (by decide)
  have h2 : instr &&& 0x7 < s.reg.length := by
    rw [h]; exact lt_trans (mask7_lt _) (by decide)
  by_cases hc : (instr >>> 5) &&& 1 ≠ 0
  · simp only [do_add, if_pos hc,
      sign_extend_eq_sext (instr &&& 0x1F) 5 (by decide) (by decide),
      regRead_eq _ _ h1, regWrite_eq _ _ _ h0, Option.bind_eq_bind,
      Option.some_bind]
    rw [update_flags_eq _ _ (by rw [List.length_set]; exact h0)
      (by rw [List.length_set]; omega)]
    simp only [Option.some_bind, Option.pure_def]
    rw [getD_set_self _ _ _ h0]
  · simp only [do_add, if_neg hc,
      regRead_eq _ _ h1, regRead_eq _ _ h2, regWrite_eq _ _ _ h0,
      Option.bind_eq_bind, Option.some_bind]
    rw [update_flags_eq _ _ (by rw [List.length_set]; exact h0)
      (by rw [List.length_set]; omega)]
    simp only [Option.some_bind, Option.pure_def]
    rw [getD_set_self _ _ _ h0]

theorem do_and_eq (instr : Nat) (s : State) (h : s.reg.length = 10) :
    do_and instr s =
      some { s with reg :=
        ((s.reg.set ((instr >>> 9) &&& 0x7)
          (if (instr >>> 5) &&& 1 ≠ 0
            then s.reg.getD ((instr >>> 6) &&& 0x7) 0 &&& sext (instr &&& 0x1F) 5
            else s.reg.getD ((instr >>> 6) &&& 0x7) 0 &&& s.reg.getD (instr &&& 0x7) 0)).set 9
          (flagFor (if (instr >>> 5) &&& 1 ≠ 0
            then s.reg.getD ((instr >>> 6) &&& 0x7) 0 &&& sext (instr &&& 0x1F) 5
            else s.reg.getD ((instr >>> 6) &&& 0x7) 0 &&& s.reg.getD (instr &&& 0x7) 0))) } := by
  have h0 : (instr >>> 9) &&& 0x7 < s.reg.length := by
    rw [h]; exact lt_trans (mask7_lt _) (by decide)
  have h1 : (instr >>> 6) &&& 0x7 < s.reg.length := by
    rw [h]; exact lt_trans (mask7_lt _) (by decide)
  have h2 : instr &&& 0x7 < s.reg.length := by
    rw [h]; exact lt_trans (mask7_lt _) (by decide)
  by_cases hc : (instr >>> 5) &&& 1 ≠ 0
  · simp only [do_and, if_pos hc,
      sign_extend_eq_sext (instr &&& 0x1F) 5 (by decide) (by decide),
      regRead_eq _ _ h1, regWrite_eq _ _ _ h0, Option.bind_eq_bind,
      Option.some_bind]
    rw [update_flags_eq _ _ (by rw [List.length_set]; exact h0)
      (by rw [List.length_set]; omega)]
    simp only [Option.some_bind, Option.pure_def]
    rw [getD_set_self _ _ _ h0]
  · simp only [do_and, if_neg hc,
      regRead_eq _ _ h1, regRead_eq _ _ h2, regWrite_eq _ _ _ h0,
      Option.bind_eq_bind, Option.some_bind]
    rw [update_flags_eq _ _ (by rw [List.length_set]; exact h0)
      (by rw [List.length_set]; omega)]
    simp only [Option.some_bind, Option.pure_def]
    rw [getD_set_self _ _ _ h0]

theorem do_not_eq (instr : Nat) (s : State) (h : s.reg.length = 10) :
    do_not instr s =
      some { s with reg :=
        ((s.reg.set ((instr >>> 9) &&& 0x7)
            (s.reg.getD ((instr >>> 6) &&& 0x7) 0 ^^^ 0xFFFF)).set 9
          (flagFor (s.reg.getD ((instr >>> 6) &&& 0x7) 0 ^^^ 0xFFFF))) } := by
  have h0 : (instr >>> 9) &&& 0x7 < s.reg.length := by
    rw [h]; exact lt_trans (mask7_lt _) (by decide)
  have h1 : (instr >>> 6) &&& 0x7 < s.reg.length := by
    rw [h]; exact lt_trans (mask7_lt _) (by decide)
  simp only [do_not, regRead_eq _ _ h1, regWrite_eq _ _ _ h0,
    Option.bind_eq_bind, Option.some_bind]
  rw [update_flags_eq _ _ (by rw [List.length_set]; exact h0)
    (by rw [List.length_set]; omega)]
  simp only [Option.some_bind, Option.pure_def]
  rw [getD_set_self _ _ _ h0]

theorem do_br_eq (instr : Nat) (s : State) (h : s.reg.length = 10) :
    do_br instr s =
      some (if ((instr >>> 9) &&& 0x7) &&& s.reg.getD R.COND 0 ≠ 0
        then { s with reg := (s.reg.set R.PC
          ((s.reg.getD R.PC 0 + sext (instr &&& 0x1FF) 9) % 65536)) }
        else s) := by
  have h8 : R.PC < s.reg.length := by rw [h]; decide
  have h9 : R.COND < s.reg.length := by rw [h]; decide
  simp only [do_br,
    sign_extend_eq_sext (instr &&& 0x1FF) 9 (by decide) (by decide),
    regRead_eq _ _ h9, Option.bind_eq_bind, Option.some_bind]
  by_cases hc : ((instr >>> 9) &&& 0x7) &&& s.reg.getD R.COND 0 ≠ 0
  · rw [if_pos hc, if_pos hc]
    simp only [regRead_eq _ _ h8, regWrite_eq _ _ _ h8,
      Option.bind_eq_bind, Option.some_bind, Option.pure_def]
  · rw [if_neg hc, if_neg hc]
    rfl

theorem do_jmp_eq (instr : Nat) (s : State) (h : s.reg.length = 10) :
    do_jmp instr s =
      some { s with reg :=
        (s.reg.set R.PC (s.reg.getD ((instr >>> 6) &&& 0x7) 0)) } := by
  have h8 : R.PC < s.reg.length := by rw [h]; decide
  have h1 : (instr >>> 6) &&& 0x7 < s.reg.length := by
    rw [h]; exact lt_trans (mask7_lt _) (by decide)
  simp only [do_jmp, regRead_eq _ _ h1, regWrite_eq _ _ _ h8,
    Option.bind_eq_bind, Option.some_bind, Option.pure_def]

theorem do_jsr_eq (instr : Nat) (s : State) (h : s.reg.length = 10) :
    do_jsr instr s =
      some { s with reg :=
        (if (instr >>> 11) &&& 1 ≠ 0
          then (s.reg.set R.R7 (s.reg.getD R.PC 0)).set R.PC
            ((s.reg.getD R.PC 0 + sext (instr &&& 0x7FF) 11) % 65536)
          else (s.reg.set R.R7 (s.reg.getD R.PC 0)).set R.PC
            ((s.reg.set R.R7 (s.reg.getD R.PC 0)).getD
              ((instr >>> 6) &&& 0x7) 0)) } := by
  have h8 : R.PC < s.reg.length := by rw [h]; decide
  have h7 : R.R7 < s.reg.length := by rw [h]; decide
  have hra : R.PC < (s.reg.set R.R7 (s.reg.getD R.PC 0)).length := by
    rw [List.length_set]; exact h8
  have hr1 : (instr >>> 6) &&& 0x7
      < (s.reg.set R.R7 (s.reg.getD R.PC 0)).length := by
    rw [List.length_set, h]; exact lt_trans (mask7_lt _) (by decide)
  by_cases hc : (instr >>> 11) &&& 1 ≠ 0
  · simp only [do_jsr, if_pos hc,
      sign_extend_eq_sext (instr &&& 0x7FF) 11 (by decide) (by decide),
      regRead_eq _ _ h8, regWrite_eq _ _ _ h7, Option.bind_eq_bind,
      Option.some_bind]
    simp only [regRead_eq _ _ hra, Option.some_bind,
      regWrite_eq _ _ _ hra, Option.pure_def]
    rw [getD_set_ne s.reg R.R7 R.PC _ (by decide)]
  · simp only [do_jsr, if_neg hc, regRead_eq _ _ h8,
      regWrite_eq _ _ _ h7, Option.bind_eq_bind, Option.some_bind]
    simp only [regRead_eq _ _ hr1, Option.some_bind,
      regWrite_eq _ _ _ hra, Option.pure_def]

theorem do_ld_eq (instr : Nat) (s : State) (h : s.reg.length = 10) :
    do_ld instr s =
      some { (memRead s
          ((s.reg.getD R.PC 0 + sext (instr &&& 0x1FF) 9) % 65536)).2 with
        reg :=
        ((s.reg.set ((instr >>> 9) &&& 0x7)
            (memRead s
              ((s.reg.getD R.PC 0 + sext (instr &&& 0x1FF) 9) % 65536)).1).set 9
          (flagFor (memRead s
            ((s.reg.getD R.PC 0 + sext (instr &&& 0x1FF) 9) % 65536)).1)) } := by
  have h0 : (instr >>> 9) &&& 0x7 < s.reg.length := by
    rw [h]; exact lt_trans (mask7_lt _) (by decide)
  have h8 : R.PC < s.reg.length := by rw [h]; decide
  simp only [do_ld,
    sign_extend_eq_sext (instr &&& 0x1FF) 9 (by decide) (by decide),
    regRead_eq _ _ h8, Option.bind_eq_bind, Option.some_bind]
  rw [memRead_reg, regWrite_eq _ _ _ h0]
  simp only [Option.some_bind]
  rw [update_flags_eq _ _ (by rw [List.length_set]; exact h0)
    (by rw [List.length_set]; omega)]
  simp only [Option.some_bind, Option.pure_def]
  rw [getD_set_self _ _ _ h0]

theorem do_ldi_eq (instr : Nat) (s : State) (h : s.reg.length = 10) :
    do_ldi instr s =
      some { (memRead (memRead s (s.reg.getD R.PC 0)).2
          (((memRead s (s.reg.getD R.PC 0)).1 + sext (instr &&& 0x1FF) 9)
            % 65536)).2 with
        reg :=
        ((s.reg.set ((instr >>> 4) &&& 0x7)
            (memRead (memRead s (s.reg.getD R.PC 0)).2
              (((memRead s (s.reg.getD R.PC 0)).1 + sext (instr &&& 0x1FF) 9)
                % 65536)).1).set 9
          (flagFor (memRead (memRead s (s.reg.getD R.PC 0)).2
            (((memRead s (s.reg.getD R.PC 0)).1 + sext (instr &&& 0x1FF) 9)
              % 65536)).1)) } := by
  have h0 : (instr >>> 4) &&& 0x7 < s.reg.length := by
    rw [h]; exact lt_trans (mask7_lt _) (by decide)
  have h8 : R.PC < s.reg.length := by rw [h]; decide
  simp only [do_ldi,
    sign_extend_eq_sext (instr &&& 0x1FF) 9 (by decide) (by decide),
    regRead_eq _ _ h8, Option.bind_eq_bind, Option.some_bind]
  rw [memRead_reg, memRead_reg, regWrite_eq _ _ _ h0]
  simp only [Option.some_bind]
  rw [update_flags_eq _ _ (by rw [List.length_set]; exact h0)
    (by rw [List.length_set]; omega)]
  simp only [Option.some_bind, Option.pure_def]
  rw [getD_set_self _ _ _ h0]

theorem do_ldr_eq (instr : Nat) (s : State) (h : s.reg.length = 10) :
    do_ldr instr s =
      some { (memRead s
          ((s.reg.getD ((instr >>> 6) &&& 0x7) 0 + sext (instr &&& 0x3F) 6)
            % 65536)).2 with
        reg :=
        ((s.reg.set ((instr >>> 9) &&& 0x7)
            (memRead s
              ((s.reg.getD ((instr >>> 6) &&& 0x7) 0 + sext (instr &&& 0x3F) 6)
                % 65536)).1).set 9
          (flagFor (memRead s
            ((s.reg.getD ((instr >>> 6) &&& 0x7) 0 + sext (instr &&& 0x3F) 6)
              % 65536)).1)) } := by
  have h0 : (instr >>> 9) &&& 0x7 < s.reg.length := by
    rw [h]; exact lt_trans (mask7_lt _) (by decide)
  have h1 : (instr >>> 6) &&& 0x7 < s.reg.length := by
    rw [h]; exact lt_trans (mask7_lt _) (by decide)
  simp only [do_ldr,
    sign_extend_eq_sext (instr &&& 0x3F) 6 (by decide) (by decide),
    regRead_eq _ _ h1, Option.bind_eq_bind, Option.some_bind]
  rw [memRead_reg, regWrite_eq _ _ _ h0]
  simp only [Option.some_bind]
  rw [update_flags_eq _ _ (by rw [List.length_set]; exact h0)
    (by rw [List.length_set]; omega)]
  simp only [Option.some_bind, Option.pure_def]
  rw [getD_set_self _ _ _ h0]

theorem do_lea_eq (instr : Nat) (s : State) (h : s.reg.length = 10) :
    do_lea instr s =
      some { s with reg :=
        ((s.reg.set ((instr >>> 9) &&& 0x7)
            ((s.reg.getD R.PC 0 + sext (instr &&& 0x1FF) 9) % 65536)).set 9
          (flagFor ((s.reg.getD R.PC 0 + sext (instr &&& 0x1FF) 9)
            % 65536))) } := by
  have h0 : (instr >>> 9) &&& 0x7 < s.reg.length := by
    rw [h]; exact lt_trans (mask7_lt _) (by decide)
  have h8 : R.PC < s.reg.length := by rw [h]; decide
  simp only [do_lea,
    sign_extend_eq_sext (instr &&& 0x1FF) 9 (by decide) (by decide),
    regRead_eq _ _ h8, regWrite_eq _ _ _ h0, Option.bind_eq_bind,
    Option.some_bind]
  rw [update_flags_eq _ _ (by rw [List.length_set]; exact h0)
    (by rw [List.length_set]; omega)]
  simp only [Option.some_bind, Option.pure_def]
  rw [getD_set_self _ _ _ h0]

theorem do_st_eq (instr : Nat) (s : State) (h : s.reg.length = 10) :
    do_st instr s =
      some (memWrite s ((R.PC + sext (instr &&& 0x1FF) 9) % 65536)
        (s.reg.getD ((instr >>> 9) &&& 0x7) 0)) := by
  have h0 : (instr >>> 9) &&& 0x7 < s.reg.length := by
    rw [h]; exact lt_trans (mask7_lt _) (by decide)
  simp only [do_st,
    sign_extend_eq_sext (instr &&& 0x1FF) 9 (by decide) (by decide),
    regRead_eq _ _ h0, Option.bind_eq_bind, Option.some_bind,
    Option.pure_def]

theorem do_sti_eq (instr : Nat) (s : State) (h : s.reg.length = 10) :
    do_sti instr s =
      some (memWrite
        (memRead s ((R.PC + sext (instr &&& 0x1FF) 9) % 65536)).2
        (memRead s ((R.PC + sext (instr &&& 0x1FF) 9) % 65536)).1
        (s.reg.getD ((instr >>> 9) &&& 0x7) 0)) := by
  have h0 : (instr >>> 9) &&& 0x7 < s.reg.length := by
    rw [h]; exact lt_trans (mask7_lt _) (by decide)
  simp only [do_sti,
    sign_extend_eq_sext (instr &&& 0x1FF) 9 (by decide) (by decide),
    Option.bind_eq_bind, Option.some_bind, memRead_reg]
  rw [regRead_eq _ _ h0]
  simp only [Option.some_bind, Option.pure_def]

theorem do_str_eq (instr : Nat) (s : State) (h : s.reg.length = 10) :
    do_str instr s =
      some (memWrite s
        ((s.reg.getD ((instr >>> 6) &&& 0x7) 0 + sext (instr &&& 0x3F) 6)
          % 65536)
        (s.reg.getD ((instr >>> 9) &&& 0x7) 0)) := by
  have h0 : (instr >>> 9) &&& 0x7 < s.reg.length := by
    rw [h]; exact lt_trans (mask7_lt _) (by decide)
  have h1 : (instr >>> 6) &&& 0x7 < s.reg.length := by
    rw [h]; exact lt_trans (mask7_lt _) (by decide)
  simp only [do_str,
    sign_extend_eq_sext (instr &&& 0x3F) 6 (by decide) (by decide),
    regRead_eq _ _ h1, regRead_eq _ _ h0, Option.bind_eq_bind,
    Option.some_bind, Option.pure_def]

/-! ### Claim C9: sign_extend against two's-complement interpretation -/

/-- Claim C9, amended: for every 16-bit value `v` and bit-width `n` in
    `[1,16]` — except `n = 16` with bit 15 of `v` set, where the Rust
    shift `0xFFFF << 16` overflows and the routine panics —
    `sign_extend` applied to `v` masked to its low `n` bits returns the
    16-bit two's-complement representation of the masked field read as
    a signed `n`-bit integer, and returns the masked input unchanged
    whenever the sign bit (bit `n-1`) of the masked input is 0. -/
theorem sign_extend_twos_complement (v n : Nat) (hv : v < 65536)
    (h1 : 1 ≤ n) (h2 : n ≤ 16) (hx : ¬(n = 16 ∧ v &&& 0x8000 ≠ 0)) :
    sign_extend (v % 2 ^ n) n = some (toU16 (asSignedInt (v % 2 ^ n) n)) ∧
    ((v % 2 ^ n) &&& 2 ^ (n - 1) = 0 →
      sign_extend (v % 2 ^ n) n = some (v % 2 ^ n)) := by
  set x := v % 2 ^ n with hxdef
  have hxlt : x < 2 ^ n := by rw [hxdef]; exact Nat.mod_lt v (Nat.two_pow_pos n)
  have hple : 2 ^ n ≤ 65536 := by
    calc 2 ^ n ≤ 2 ^ 16 := Nat.pow_le_pow_right (by decide) h2
    _ = 65536 := by decide
  have hsign : (x >>> (n - 1)) &&& 1 = 0 ↔ x &&& 2 ^ (n - 1) = 0 := by
    rw [shiftRight_and_one_eq, and_two_pow_eq_zero_iff]
  rcases Nat.eq_zero_or_pos ((x >>> (n - 1)) &&& 1) with hb | hb
  · have hsz : x &&& 2 ^ (n - 1) = 0 := hsign.mp hb
    have hnot : ¬((x >>> (n - 1)) &&& 1 ≠ 0) := by omega
    have e : sign_extend x n = some x := by
      unfold sign_extend
      rw [if_neg (by omega), if_neg hnot]
    have easn : asSignedInt x n = (x : Int) := by
      unfold asSignedInt
      rw [if_neg (by simpa using hsz)]
    have exlt : x < 65536 := lt_of_lt_of_le hxlt hple
    have etou : toU16 (asSignedInt x n) = x := by
      rw [easn]
      unfold toU16
      omega
    exact ⟨by rw [e, etou], fun _ => e⟩
  · have hb' : (x >>> (n - 1)) &&& 1 ≠ 0 := by omega
    have hs2 : x &&& 2 ^ (n - 1) ≠ 0 := fun hc => hb' (hsign.mpr hc)
    have hn16 : n ≠ 16 := by
      intro hc
      apply hx
      refine ⟨hc, ?_⟩
      subst hc
      have hxv : x = v := by
        have h65 : (2 : Nat) ^ 16 = 65536 := by decide
        rw [hxdef, h65, Nat.mod_eq_of_lt hv]
      have h15 : (2 : Nat) ^ (16 - 1) = 0x8000 := by decide
      rw [hxv, h15] at hs2
      exact hs2
    have hmask : (0xFFFF <<< n) % 65536 = 65536 - 2 ^ n := sext_mask_eq n h1 h2
    have e : sign_extend x n = some (x ||| ((0xFFFF <<< n) % 65536)) := by
      unfold sign_extend
      rw [if_neg (by omega), if_pos hb', if_neg hn16]
    have hq : 65536 - 2 ^ n = (2 ^ (16 - n) - 1) * 2 ^ n := by
      have hp : 2 ^ (16 - n) * 2 ^ n = 65536 := by
        have h16 : 16 - n + n = 16 := by omega
        rw [← Nat.pow_add, h16]
      have hsub := Nat.sub_mul (2 ^ (16 - n)) 1 (2 ^ n)
      omega
    have hdisj : x &&& (65536 - 2 ^ n) = 0 := by
      rw [hq]
      exact and_mul_two_pow_eq_zero n x _ hxlt
    have hor : x ||| (65536 - 2 ^ n) = x + (65536 - 2 ^ n) :=
      or_eq_add_of_and_eq_zero x _ hdisj
    have easn : asSignedInt x n = (x : Int) - ((2 ^ n : Nat) : Int) := by
      unfold asSignedInt
      rw [if_pos hs2]
    have etou : toU16 (asSignedInt x n) = x + (65536 - 2 ^ n) := by
      rw [easn]
      unfold toU16
      omega
    refine ⟨?_, fun hc => absurd hc hs2⟩
    rw [e, hmask, hor, etou]

/-- Claim C9 fails as stated at `v = 0x8000`, `n = 16`: the masked
    input is `0x8000`, whose 16-bit two's-complement representation at
    width 16 is `0x8000` itself, but the Rust routine overflows the
    shift `0xFFFF << 16` (modelled `none`) instead of returning it. -/
theorem sign_extend_width16_counterexample :
    toU16 (asSignedInt (0x8000 % 2 ^ 16) 16) = 0x8000 ∧
    sign_extend (0x8000 % 2 ^ 16) 16
      ≠ some (toU16 (asSignedInt (0x8000 % 2 ^ 16) 16)) := by
  constructor
  · decide
  · decide

/-- Witness for `sign_extend_twos_complement` at `v = 0x1F0`, `n = 9`
    (sign bit set: the two's-complement result is `0xFFF0`). -/
theorem sign_extend_twos_complement_witness :
    sign_extend (0x1F0 % 2 ^ 9) 9 = some (toU16 (asSignedInt (0x1F0 % 2 ^ 9) 9)) :=
  (sign_extend_twos_complement 0x1F0 9 (by decide) (by decide) (by decide)
    (by decide)).1

/-! ### Claims C1, C2, C3, C7: concrete evaluations exhibiting the
    divergences between `instr.rs` and the specification -/

/-- Claim C1 (code bug): executing `do_ldi` with instruction word
    `0xA201` (top bits LDI, DR = R1 by bits [11:9], offset9 = 1) from
    PC = 0x3000 over `ldiExampleMem` must, per the claim, set R1 to
    Memory[Memory[0x3000 + 1]] = Memory[0x5000] = 222.  The routine
    instead leaves R1 = 0 and writes
    Memory[Memory[0x3000] + 1] = Memory[0x4001] = 111 into R0, the
    field at bits [6:4]. -/
theorem do_ldi_wrong_field_and_indirection :
    ((do_ldi 0xA201 ldiExampleState).bind fun s => s.reg[1]?) = some 0 ∧
    ((do_ldi 0xA201 ldiExampleState).bind fun s => s.reg[0]?) = some 111 := by
  constructor
  · decide
  · decide

/-- Claim C2 (code bug): executing `do_st` with instruction word
    `0x3200` (top bits ST, SR = R1, offset9 = 0) from PC = 0x3000 with
    R1 = 77 must, per the claim, write 77 to Memory[0x3000].  The
    routine instead writes 77 to Memory[8], because it uses the enum
    discriminant `R::PC as u16 = 8` instead of the PC register value. -/
theorem do_st_discriminant_address :
    ((do_st 0x3200 stExampleState).map fun s => s.mem 0x3000) = some 0 ∧
    ((do_st 0x3200 stExampleState).map fun s => s.mem 8) = some 77 := by
  constructor
  · decide
  · decide

/-- Claim C3 (code bug): executing `do_sti` with instruction word
    `0xB200` (top bits STI, SR = R1, offset9 = 0) from PC = 0x3000 with
    R1 = 55, Memory[0x3000] = 0x4000 and Memory[8] = 100 must, per the
    claim, write 55 to Memory[Memory[0x3000]] = Memory[0x4000].  The
    routine instead writes 55 to Memory[Memory[8]] = Memory[100],
    because it reads the pointer at the enum discriminant
    `R::PC as u16 = 8` instead of the PC register value. -/
theorem do_sti_discriminant_address :
    ((do_sti 0xB200 stiExampleState).map fun s => s.mem 0x4000) = some 0 ∧
    ((do_sti 0xB200 stiExampleState).map fun s => s.mem 100) = some 55 := by
  constructor
  · decide
  · decide

/-- Claim C7 (code bug): with R0 = 0x3000 pointing at the words
    `[0x0100, 0x41, 0]`, the PUTS trap must, per the claim, treat the
    non-zero word 0x0100 (whose low byte is zero) as a character and
    stop only at the zero word 0x3002, outputting two characters.  The
    routine truncates each word with `as u8` before the null test and
    therefore stops immediately, outputting nothing. -/
theorem do_trap_puts_zero_low_byte_stops :
    putsExampleState.mem 0x3000 = 0x0100 ∧
    putsExampleState.mem 0x3000 ≠ 0 ∧
    putsExampleState.mem 0x3002 = 0 ∧
    ((do_trap 100 0xF022 putsExampleState).map State.output) = some [] := by
  refine ⟨by decide, by decide, by decide, by decide⟩

/-! ### Claim C4: condition flags after update_flags and after every
    flag-updating routine -/

theorem cond_after_set_flags (reg : List Nat) (r0 v : Nat)
    (h : reg.length = 10) (hr : r0 < 8) :
    ((reg.set r0 v).set 9 (flagFor v)).getD R.COND 0
      = flagFor (((reg.set r0 v).set 9 (flagFor v)).getD r0 0) := by
  have h9 : (9 : Nat) < (reg.set r0 v).length := by
    rw [List.length_set, h]; decide
  show ((reg.set r0 v).set 9 (flagFor v)).getD 9 0
      = flagFor (((reg.set r0 v).set 9 (flagFor v)).getD r0 0)
  rw [getD_set_self _ _ _ h9]
  rw [getD_set_ne _ _ _ _ (by omega)]
  rw [getD_set_self _ _ _ (by rw [h]; omega)]

/-- Claim C4: `update_flags` on a valid register `r` sets COND to
    exactly one of the three (pairwise distinct) flag values,
    determined by the value `v` of register `r` (`v = 0` gives ZRO, a
    set bit 15 gives NEG, otherwise POS); and after each flag-updating
    routine (ADD, AND, NOT, LD, LDI, LDR, LEA), COND holds the flag of
    the destination register's final value (the destination field is
    bits [11:9], except that `do_ldi` reads its field at bits [6:4]). -/
theorem update_flags_cond_invariant :
    (∀ v : Nat,
      (v = 0 → flagFor v = FL.ZRO) ∧
      (v ≠ 0 → v >>> 15 ≠ 0 → flagFor v = FL.NEG) ∧
      (v ≠ 0 → v >>> 15 = 0 → flagFor v = FL.POS) ∧
      (flagFor v = FL.NEG ∨ flagFor v = FL.ZRO ∨ flagFor v = FL.POS) ∧
      FL.NEG ≠ FL.ZRO ∧ FL.NEG ≠ FL.POS ∧ FL.ZRO ≠ FL.POS) ∧
    (∀ (reg : List Nat) (r : Nat), reg.length = 10 → r < 10 →
      ∃ reg', update_flags reg r = some reg' ∧
        reg'.getD R.COND 0 = flagFor (reg.getD r 0)) ∧
    (∀ instr s s', s.reg.length = 10 → do_add instr s = some s' →
      s'.reg.getD R.COND 0
        = flagFor (s'.reg.getD ((instr >>> 9) &&& 0x7) 0)) ∧
    (∀ instr s s', s.reg.length = 10 → do_and instr s = some s' →
      s'.reg.getD R.COND 0
        = flagFor (s'.reg.getD ((instr >>> 9) &&& 0x7) 0)) ∧
    (∀ instr s s', s.reg.length = 10 → do_not instr s = some s' →
      s'.reg.getD R.COND 0
        = flagFor (s'.reg.getD ((instr >>> 9) &&& 0x7) 0)) ∧
    (∀ instr s s', s.reg.length = 10 → do_ld instr s = some s' →
      s'.reg.getD R.COND 0
        = flagFor (s'.reg.getD ((instr >>> 9) &&& 0x7) 0)) ∧
    (∀ instr s s', s.reg.length = 10 → do_ldi instr s = some s' →
      s'.reg.getD R.COND 0
        = flagFor (s'.reg.getD ((instr >>> 4) &&& 0x7) 0)) ∧
    (∀ instr s s', s.reg.length = 10 → do_ldr instr s = some s' →
      s'.reg.getD R.COND 0
        = flagFor (s'.reg.getD ((instr >>> 9) &&& 0x7) 0)) ∧
    (∀ instr s s', s.reg.length = 10 → do_lea instr s = some s' →
      s'.reg.getD R.COND 0
        = flagFor (s'.reg.getD ((instr >>> 9) &&& 0x7) 0)) := by
  refine ⟨?_, ?_, ?_, ?_, ?_, ?_, ?_, ?_, ?_⟩
  · intro v
    unfold flagFor
    by_cases hz : v = 0
    · simp [hz, FL.NEG, FL.ZRO, FL.POS]
    · by_cases hn : v >>> 15 ≠ 0
      · simp [hz, hn, FL.NEG, FL.ZRO, FL.POS]
      · simp [hz, hn, FL.NEG, FL.ZRO, FL.POS]
  · intro reg r h hr
    refine ⟨_, update_flags_eq reg r (by rw [h]; exact hr)
      (by rw [h]; decide), ?_⟩
    show (reg.set 9 (flagFor (reg.getD r 0))).getD 9 0 = _
    rw [getD_set_self _ _ _ (by rw [h]; decide)]
  · intro instr s s' h hx
    rw [do_add_eq instr s h] at hx
    injection hx with hx
    subst hx
    exact cond_after_set_flags s.reg _ _ h (mask7_lt _)
  · intro instr s s' h hx
    rw [do_and_eq instr s h] at hx
    injection hx with hx
    subst hx
    exact cond_after_set_flags s.reg _ _ h (mask7_lt _)
  · intro instr s s' h hx
    rw [do_not_eq instr s h] at hx
    injection hx with hx
    subst hx
    exact cond_after_set_flags s.reg _ _ h (mask7_lt _)
  · intro instr s s' h hx
    rw [do_ld_eq instr s h] at hx
    injection hx with hx
    subst hx
    exact cond_after_set_flags s.reg _ _ h (mask7_lt _)
  · intro instr s s' h hx
    rw [do_ldi_eq instr s h] at hx
    injection hx with hx
    subst hx
    exact cond_after_set_flags s.reg _ _ h (mask7_lt _)
  · intro instr s s' h hx
    rw [do_ldr_eq instr s h] at hx
    injection hx with hx
    subst hx
    exact cond_after_set_flags s.reg _ _ h (mask7_lt _)
  · intro instr s s' h hx
    rw [do_lea_eq instr s h] at hx
    injection hx with hx
    subst hx
    exact cond_after_set_flags s.reg _ _ h (mask7_lt _)

/-- Witness for `update_flags_cond_invariant`: `update_flags` on
    register 0 (value 5) of a concrete register file. -/
theorem update_flags_cond_invariant_witness :
    ∃ reg', update_flags [5, 0, 0, 0, 0, 0, 0, 0, 0x3000, 2] 0 = some reg' ∧
      reg'.getD R.COND 0
        = flagFor ([5, 0, 0, 0, 0, 0, 0, 0, 0x3000, 2].getD 0 0) :=
  update_flags_cond_invariant.2.1 [5, 0, 0, 0, 0, 0, 0, 0, 0x3000, 2] 0
    rfl (by decide)

/-! ### Claim C5: JSR/JSRR links R7 before changing PC -/

/-- Claim C5: for every instruction word decoding to JSR/JSRR and every
    state (with the PC register already past the instruction), the
    routine first sets R7 to that PC value and only then changes PC —
    to `PC + sign_extend(offset11, 11)` when bit 11 is set, or to the
    value of the base register in bits [8:6] read from the register
    file that already holds the link (so `JSRR R7` jumps to the linked
    return address). -/
theorem do_jsr_links_then_jumps :
    ∀ instr s, s.reg.length = 10 →
      OP.tryFrom (instr >>> 12) = Except.ok OP.JSR →
      ∃ s', do_jsr instr s = some s' ∧
        s'.reg.getD R.R7 0 = s.reg.getD R.PC 0 ∧
        s'.reg.getD R.PC 0 =
          (if (instr >>> 11) &&& 1 ≠ 0
            then (s.reg.getD R.PC 0 + sext (instr &&& 0x7FF) 11) % 65536
            else (s.reg.set R.R7 (s.reg.getD R.PC 0)).getD
              ((instr >>> 6) &&& 0x7) 0) ∧
        s'.mem = s.mem ∧ s'.input = s.input ∧
        s'.output = s.output ∧ s'.running = s.running := by
  intro instr s h _hop
  refine ⟨_, do_jsr_eq instr s h, ?_, ?_, rfl, rfl, rfl, rfl⟩
  · by_cases hc : (instr >>> 11) &&& 1 ≠ 0
    · show ((if _ then _ else _ : List Nat)).getD R.R7 0 = _
      rw [if_pos hc]
      rw [getD_set_ne _ R.PC R.R7 _ (by decide),
        getD_set_self _ _ _ (by rw [h]; decide)]
    · show ((if _ then _ else _ : List Nat)).getD R.R7 0 = _
      rw [if_neg hc]
      rw [getD_set_ne _ R.PC R.R7 _ (by decide),
        getD_set_self _ _ _ (by rw [h]; decide)]
  · by_cases hc : (instr >>> 11) &&& 1 ≠ 0
    · show ((if _ then _ else _ : List Nat)).getD R.PC 0 = _
      rw [if_pos hc, if_pos hc]
      exact getD_set_self _ _ _ (by rw [List.length_set, h]; decide)
    · show ((if _ then _ else _ : List Nat)).getD R.PC 0 = _
      rw [if_neg hc, if_neg hc]
      exact getD_set_self _ _ _ (by rw [List.length_set, h]; decide)

/-- Witness for `do_jsr_links_then_jumps`: `JSRR R7` (word 0x41C0)
    from `demoState`. -/
theorem do_jsr_links_then_jumps_witness :
    ∃ s', do_jsr 0x41C0 demoState = some s' ∧
      s'.reg.getD R.R7 0 = demoState.reg.getD R.PC 0 ∧
      s'.reg.getD R.PC 0 =
        (if (0x41C0 >>> 11) &&& 1 ≠ 0
          then (demoState.reg.getD R.PC 0 + sext (0x41C0 &&& 0x7FF) 11) % 65536
          else (demoState.reg.set R.R7 (demoState.reg.getD R.PC 0)).getD
            ((0x41C0 >>> 6) &&& 0x7) 0) ∧
      s'.mem = demoState.mem ∧ s'.input = demoState.input ∧
      s'.output = demoState.output ∧ s'.running = demoState.running :=
  do_jsr_links_then_jumps 0x41C0 demoState rfl rfl

/-! ### Claim C6: memory-mapped keyboard read -/

/-- Claim C6: `Memory::read` at the keyboard-status address polls the
    input source: with a byte pending it stores the character code at
    the keyboard-data address, sets the status word's high bit
    (status = `1 <<< 15`) and returns that status word, consuming the
    byte; with no input it zeroes the status word, leaves the
    keyboard-data word (and all other words) unchanged and returns 0;
    a read at any other address
    returns the stored word and leaves the whole state unchanged. -/
theorem memRead_keyboard_spec :
    ∀ s : State,
      (∀ b rest, s.input = b :: rest →
        (memRead s MR.KBSR).1 = 1 <<< 15 ∧
        (memRead s MR.KBSR).2.mem MR.KBSR = 1 <<< 15 ∧
        (memRead s MR.KBSR).2.mem MR.KBDR = b % 256 ∧
        (∀ a, a ≠ MR.KBSR → a ≠ MR.KBDR →
          (memRead s MR.KBSR).2.mem a = s.mem a) ∧
        (memRead s MR.KBSR).2.input = rest ∧
        (memRead s MR.KBSR).2.reg = s.reg) ∧
      (s.input = [] →
        (memRead s MR.KBSR).1 = 0 ∧
        (memRead s MR.KBSR).2.mem MR.KBSR = 0 ∧
        (memRead s MR.KBSR).2.mem MR.KBDR = s.mem MR.KBDR ∧
        (∀ a, a ≠ MR.KBSR → (memRead s MR.KBSR).2.mem a = s.mem a) ∧
        (memRead s MR.KBSR).2.input = s.input ∧
        (memRead s MR.KBSR).2.reg = s.reg) ∧
      (∀ a, a ≠ MR.KBSR → memRead s a = (s.mem a, s)) := by
  intro s
  refine ⟨?_, ?_, fun a ha => memRead_not_kbsr s a ha⟩
  · intro b rest hin
    refine ⟨by simp [memRead, hin, MR.KBSR, MR.KBDR],
      by simp [memRead, hin, MR.KBSR, MR.KBDR],
      by simp [memRead, hin, MR.KBSR, MR.KBDR], ?_,
      by simp [memRead, hin, MR.KBSR, MR.KBDR],
      by simp [memRead, hin, MR.KBSR, MR.KBDR]⟩
    intro a ha hd
    simp only [MR.KBSR, MR.KBDR] at ha hd
    simp [memRead, hin, MR.KBSR, MR.KBDR, ha, hd]
  · intro hin
    refine ⟨by simp [memRead, hin, MR.KBSR, MR.KBDR],
      by simp [memRead, hin, MR.KBSR, MR.KBDR],
      by simp [memRead, hin, MR.KBSR, MR.KBDR], ?_,
      by simp [memRead, hin, MR.KBSR, MR.KBDR],
      by simp [memRead, hin, MR.KBSR, MR.KBDR]⟩
    intro a ha
    simp only [MR.KBSR] at ha
    simp [memRead, hin, MR.KBSR, MR.KBDR, ha]

/-- Witness for `memRead_keyboard_spec`: one pending byte (65) in
    `kbExampleState`. -/
theorem memRead_keyboard_spec_witness :
    (memRead kbExampleState MR.KBSR).1 = 1 <<< 15 ∧
    (memRead kbExampleState MR.KBSR).2.mem MR.KBSR = 1 <<< 15 ∧
    (memRead kbExampleState MR.KBSR).2.mem MR.KBDR = 65 % 256 ∧
    (∀ a, a ≠ MR.KBSR → a ≠ MR.KBDR →
      (memRead kbExampleState MR.KBSR).2.mem a = kbExampleState.mem a) ∧
    (memRead kbExampleState MR.KBSR).2.input = [] ∧
    (memRead kbExampleState MR.KBSR).2.reg = kbExampleState.reg :=
  (memRead_keyboard_spec kbExampleState).1 65 [] rfl

/-! ### Claim C8: unknown trap vectors abort -/

/-- Claim C8: `TRAP::try_from` succeeds exactly on the six vectors
    `0x20..0x25`, and for every instruction whose low 8 bits lie
    outside that range `do_trap` produces no normal result (the Rust
    routine panics through `expect("unknown trap routine")` rather than
    silently continuing). -/
theorem trap_unknown_vector_aborts :
    (∀ v : Nat, (∃ t, TRAP.tryFrom v = Except.ok t) ↔ (0x20 ≤ v ∧ v ≤ 0x25)) ∧
    (∀ fuel instr s, ¬(0x20 ≤ instr &&& 0xFF ∧ instr &&& 0xFF ≤ 0x25) →
      do_trap fuel instr s = none) := by
  have herr : ∀ w : Nat, ¬(0x20 ≤ w ∧ w ≤ 0x25) →
      TRAP.tryFrom w = Except.error w := by
    intro w hw
    unfold TRAP.tryFrom
    split
    all_goals first | rfl | omega
  refine ⟨fun v => ⟨?_, ?_⟩, ?_⟩
  · rintro ⟨t, ht⟩
    by_contra hcon
    rw [herr v hcon] at ht
    cases ht
  · rintro ⟨h1, h2⟩
    interval_cases v
    · exact ⟨TRAP.GETC, rfl⟩
    · exact ⟨TRAP.OUT, rfl⟩
    · exact ⟨TRAP.PUTS, rfl⟩
    · exact ⟨TRAP.IN, rfl⟩
    · exact ⟨TRAP.PUTSP, rfl⟩
    · exact ⟨TRAP.HALT, rfl⟩
  · intro fuel instr s hout
    rcases hrv : regRead s.reg R.PC with _ | pcv
    · simp [do_trap, hrv]
    · rcases hrw : regWrite s.reg R.R7 pcv with _ | regL
      · simp [do_trap, hrv, hrw]
      · simp [do_trap, hrv, hrw, herr _ hout]

/-- Witness for `trap_unknown_vector_aborts`: the trap word 0xF013
    (vector 0x13) aborts from `demoState`. -/
theorem trap_unknown_vector_aborts_witness :
    do_trap 1 0xF013 demoState = none :=
  trap_unknown_vector_aborts.2 1 0xF013 demoState (by decide)

/-! ### Claim C10: register-file accesses of the execution routines
    never go out of bounds -/

/-- Claim C10: on the 10-slot register file, every register access
    performed by the execution routines of `instr.rs` is in bounds —
    each instruction-derived index is masked with 0x7 (so below 8) and
    each named index (R0, R7, PC, COND) is below 10.  The thirteen
    non-trap routines therefore return a normal result (`isSome`, no
    indexing panic) for every instruction word and every state, and
    every register access of `do_trap` succeeds likewise: the link
    prefix (`reg[PC]` read, `reg[R7]` write) is in bounds for every
    instruction word, GETC (with input pending), OUT, IN and HALT run
    to a normal result through their `reg[R0]` accesses and their
    `update_flags(R0)` COND writes, and PUTS/PUTSP reduce, after their
    in-bounds `reg[R0]` read, exactly to their register-free output
    loops (whose only failure mode is fuel exhaustion, standing for the
    unbounded Rust loop, not a register panic). -/
theorem exec_routines_no_panic :
    ∀ (fuel instr : Nat) (s : State), s.reg.length = 10 →
      (do_add instr s).isSome ∧ (do_and instr s).isSome ∧
      (do_not instr s).isSome ∧ (do_br instr s).isSome ∧
      (do_jmp instr s).isSome ∧ (do_jsr instr s).isSome ∧
      (do_ld instr s).isSome ∧ (do_ldi instr s).isSome ∧
      (do_ldr instr s).isSome ∧ (do_lea instr s).isSome ∧
      (do_st instr s).isSome ∧ (do_sti instr s).isSome ∧
      (do_str instr s).isSome ∧
      (regRead s.reg R.PC).isSome ∧
      (regWrite s.reg R.R7 (s.reg.getD R.PC 0)).isSome ∧
      (TRAP.tryFrom (instr &&& 0xFF) = Except.ok TRAP.GETC →
        s.input ≠ [] → (do_trap fuel instr s).isSome) ∧
      (TRAP.tryFrom (instr &&& 0xFF) = Except.ok TRAP.OUT →
        (do_trap fuel instr s).isSome) ∧
      (TRAP.tryFrom (instr &&& 0xFF) = Except.ok TRAP.IN →
        (do_trap fuel instr s).isSome) ∧
      (TRAP.tryFrom (instr &&& 0xFF) = Except.ok TRAP.HALT →
        (do_trap fuel instr s).isSome) ∧
      (TRAP.tryFrom (instr &&& 0xFF) = Except.ok TRAP.PUTS →
        do_trap fuel instr s =
          putsLoop fuel (s.reg.getD R.R0 0)
            { s with reg := (s.reg.set R.R7 (s.reg.getD R.PC 0)) }) ∧
      (TRAP.tryFrom (instr &&& 0xFF) = Except.ok TRAP.PUTSP →
        do_trap fuel instr s =
          putspLoop fuel (s.reg.getD R.R0 0)
            { s with reg := (s.reg.set R.R7 (s.reg.getD R.PC 0)) }) := by
  intro fuel instr s h
  have h8 : R.PC < s.reg.length := by rw [h]; decide
  have h7 : R.R7 < s.reg.length := by rw [h]; decide
  have hL : (s.reg.set R.R7 (s.reg.getD R.PC 0)).length = 10 := by
    rw [List.length_set, h]
  have h0L : R.R0 < (s.reg.set R.R7 (s.reg.getD R.PC 0)).length := by
    rw [hL]; decide
  refine ⟨?_, ?_, ?_, ?_, ?_, ?_, ?_, ?_, ?_, ?_, ?_, ?_, ?_,
    ?_, ?_, ?_, ?_, ?_, ?_, ?_, ?_⟩
  · rw [do_add_eq instr s h]; rfl
  · rw [do_and_eq instr s h]; rfl
  · rw [do_not_eq instr s h]; rfl
  · rw [do_br_eq instr s h]; rfl
  · rw [do_jmp_eq instr s h]; rfl
  · rw [do_jsr_eq instr s h]; rfl
  · rw [do_ld_eq instr s h]; rfl
  · rw [do_ldi_eq instr s h]; rfl
  · rw [do_ldr_eq instr s h]; rfl
  · rw [do_lea_eq instr s h]; rfl
  · rw [do_st_eq instr s h]; rfl
  · rw [do_sti_eq instr s h]; rfl
  · rw [do_str_eq instr s h]; rfl
  · rw [regRead_eq _ _ h8]; rfl
  · rw [regWrite_eq _ _ _ h7]; rfl
  · intro hv hin
    rcases hbi : s.input with _ | ⟨b, rest⟩
    · exact absurd hbi hin
    · have hL2 : ((s.reg.set R.R7 (s.reg.getD R.PC 0)).set R.R0
          (b % 256)).length = 10 := by
        rw [List.length_set, hL]
      have hu := update_flags_eq
        ((s.reg.set R.R7 (s.reg.getD R.PC 0)).set R.R0 (b % 256)) R.R0
        (by rw [hL2]; decide) (by rw [hL2]; decide)
      have hw := regWrite_eq (s.reg.set R.R7 (s.reg.getD R.PC 0)) R.R0
        (b % 256) h0L
      simp only [do_trap, Option.bind_eq_bind, regRead_eq _ _ h8,
        Option.some_bind, regWrite_eq _ _ _ h7, hv, hbi, hw, hu,
        Option.pure_def, Option.isSome_some]
  · intro hv
    have hr0 := regRead_eq (s.reg.set R.R7 (s.reg.getD R.PC 0)) R.R0 h0L
    simp only [do_trap, Option.bind_eq_bind, regRead_eq _ _ h8,
      Option.some_bind, regWrite_eq _ _ _ h7, hv, hr0,
      Option.pure_def, Option.isSome_some]
  · intro hv
    rcases hsp : (splitLine s.input).1 with _ | ⟨c, cs⟩
    · simp only [do_trap, Option.bind_eq_bind, regRead_eq _ _ h8,
        Option.some_bind, regWrite_eq _ _ _ h7, hv, hsp,
        Option.pure_def, Option.isSome_some]
    · have hL2 : ((s.reg.set R.R7 (s.reg.getD R.PC 0)).set R.R0
          c).length = 10 := by
        rw [List.length_set, hL]
      have hu := update_flags_eq
        ((s.reg.set R.R7 (s.reg.getD R.PC 0)).set R.R0 c) R.R0
        (by rw [hL2]; decide) (by rw [hL2]; decide)
      have hw := regWrite_eq (s.reg.set R.R7 (s.reg.getD R.PC 0)) R.R0
        c h0L
      simp only [do_trap, Option.bind_eq_bind, regRead_eq _ _ h8,
        Option.some_bind, regWrite_eq _ _ _ h7, hv, hsp, hw, hu,
        Option.pure_def, Option.isSome_some]
  · intro hv
    simp only [do_trap, Option.bind_eq_bind, regRead_eq _ _ h8,
      Option.some_bind, regWrite_eq _ _ _ h7, hv, Option.pure_def,
      Option.isSome_some]
  · intro hv
    simp only [do_trap, Option.bind_eq_bind, regRead_eq _ _ h8,
      Option.some_bind, regWrite_eq _ _ _ h7, hv]
    rw [regRead_eq _ _ h0L]
    simp only [Option.some_bind]
    rw [getD_set_ne s.reg R.R7 R.R0 _ (by decide)]
  · intro hv
    simp only [do_trap, Option.bind_eq_bind, regRead_eq _ _ h8,
      Option.some_bind, regWrite_eq _ _ _ h7, hv]
    rw [regRead_eq _ _ h0L]
    simp only [Option.some_bind]
    rw [getD_set_ne s.reg R.R7 R.R0 _ (by decide)]

/-- Witness for `exec_routines_no_panic`: the thirteen non-trap
    routines on the word 0xFFFF from `demoState`, the trap link prefix,
    a GETC trap with one pending byte, a HALT trap, and the PUTS
    reduction, all at concrete inputs. -/
theorem exec_routines_no_panic_witness :
    (do_add 0xFFFF demoState).isSome ∧
    (regRead demoState.reg R.PC).isSome ∧
    (do_trap 9 0xF020 { demoState with input := [65] }).isSome ∧
    (do_trap 9 0xF025 demoState).isSome ∧
    do_trap 9 0xF022 demoState =
      putsLoop 9 (demoState.reg.getD R.R0 0)
        { demoState with
          reg := (demoState.reg.set R.R7 (demoState.reg.getD R.PC 0)) } :=
  ⟨(exec_routines_no_panic 9 0xFFFF demoState rfl).1,
   (exec_routines_no_panic 9 0xFFFF demoState rfl).2.2.2.2.2.2.2.2.2.2.2.2.2.1,
   (exec_routines_no_panic 9 0xF020 { demoState with input := [65] }
      rfl).2.2.2.2.2.2.2.2.2.2.2.2.2.2.2.1 rfl (by decide),
   (exec_routines_no_panic 9 0xF025 demoState
      rfl).2.2.2.2.2.2.2.2.2.2.2.2.2.2.2.2.2.2.1 rfl,
   (exec_routines_no_panic 9 0xF022 demoState
      rfl).2.2.2.2.2.2.2.2.2.2.2.2.2.2.2.2.2.2.2.1 rfl⟩

end LC3
